import Mathlib

/-!
Shallow embedding of `scripts/build.py`, a small cmake front end.

The program's state that matters to the properties below is:
 - the settings file at the fixed location (absent, invalid JSON, or a JSON
   object, modelled as an association list of string keys and values);
 - the in-memory `BuildSetting.Values` store that `Load` mutates field by
   field;
 - the process working directory together with the value of the `OLDPWD`
   environment variable (`os.chdir` changes the working directory but does
   not touch the environment, so `os.getenv("OLDPWD")` keeps the value the
   process inherited);
 - the contents of the build directory (for `Cleanup`);
 - the exit codes of the stubbed external `cmake` invocations.

Fallible Python code (raised exceptions) is embedded as `Option`/`Except`
results carrying the exception message, and `ProjectBuilder.Run` returns the
trace of operations it attempted so ordering properties can be stated.
-/

def MY_NAME : String := "C Project Builder"

/-- Content of the settings file when it is present: either text that
`json.load` rejects (the embedded `msg` is the decode error's message), or a
parsed JSON object of string keys and values. -/
inductive FileContent where
  | invalid (msg : String)
  | obj (kvs : List (String × String))
deriving DecidableEq

/-- Key lookup in a parsed JSON object, as `jsonObject[key]` reads a Python
dict (the settings objects involved carry no duplicate keys). -/
def jsonGet (kvs : List (String × String)) (key : String) : Option String :=
  (kvs.find? (fun kv => kv.1 == key)).map (fun kv => kv.2)

namespace BuildSetting

def FILE_NAME : String := "buildsettings.json"

namespace Name

def BUILD_DIR : String := "BuildDirectory"

def PROJECT_HOME : String := "ProjectHome"

end Name

/-- The mutable `BuildSetting.Values` dataclass, with its field defaults. -/
structure Values where
  buildDirectory : String := ""
  projectHome : String := ""
deriving DecidableEq

/-- Errors `Load` can raise: the `RuntimeError` for a missing file, the
`json.JSONDecodeError` for invalid JSON, and the `KeyError` for a missing
required key. -/
inductive LoadErr where
  | notFound
  | parseError (msg : String)
  | keyErr (key : String)
deriving DecidableEq

/-- `BuildSetting.Load`, over the settings file's content and the store's
values before the call. Returns the raised error (if any) and the store's
values after the call; the two field assignments of the source happen in
order, so a `KeyError` on the second key leaves the first assignment done. -/
def Load (file : Option FileContent) (v : Values) : Option LoadErr × Values :=
  match file with
  | none => (some .notFound, v)
  | some (.invalid msg) => (some (.parseError msg), v)
  | some (.obj kvs) =>
    match jsonGet kvs Name.PROJECT_HOME with
    | none => (some (.keyErr Name.PROJECT_HOME), v)
    | some ph =>
      let v1 : Values := { v with projectHome := ph }
      match jsonGet kvs Name.BUILD_DIR with
      | none => (some (.keyErr Name.BUILD_DIR), v1)
      | some bd => (none, { v1 with buildDirectory := bd })

/-- The `__TEMPLATE` property: the object `Create` serialises when the file
is absent. -/
def TEMPLATE : FileContent :=
  .obj [(Name.PROJECT_HOME, "."), (Name.BUILD_DIR, "build")]

/-- `BuildSetting.Create`, over the settings file's content before the call:
returns the file's content after the call. When the file exists it returns
immediately; otherwise it writes the template. -/
def Create (file : Option FileContent) : Option FileContent :=
  match file with
  | some c => some c
  | none => some TEMPLATE

end BuildSetting

/-- The Python exceptions surfaced to `main`, with enough to rebuild
`str(e)`: `str` of a `KeyError` is the quoted key. -/
inductive PyError where
  | runtimeError (msg : String)
  | jsonDecodeError (msg : String)
  | keyError (key : String)
  | fileNotFoundError (msg : String)
deriving DecidableEq

def PyError.message : PyError → String
  | .runtimeError m => m
  | .jsonDecodeError m => m
  | .keyError k => "'" ++ k ++ "'"
  | .fileNotFoundError m => m

/-- The exception `Load`'s error becomes when it propagates out. -/
def BuildSetting.LoadErr.toPyError : BuildSetting.LoadErr → PyError
  | .notFound => .runtimeError (BuildSetting.FILE_NAME ++ " does not exist.")
  | .parseError m => .jsonDecodeError m
  | .keyErr k => .keyError k

/-- `subprocess.run` with `check` on the named child exit code: with
`check=True` it raises `CalledProcessError` (carrying the return code) when
the child exits non-zero, and otherwise returns the completed process's
return code. -/
def subprocessRun (check : Bool) (returncode : Int) : Except Int Int :=
  if check ∧ returncode ≠ 0 then .error returncode else .ok returncode

namespace SubProcessWrapper

/-- `SubProcessWrapper.Run`: `subprocess.run(args, check=True)` with no
handler, so a non-zero exit code propagates as a raised error. -/
def Run (returncode : Int) : Except Int Int :=
  subprocessRun true returncode

/-- `SubProcessWrapper.RunSimply`: the same checked call, but
`CalledProcessError` is caught and its return code returned. -/
def RunSimply (returncode : Int) : Int :=
  match subprocessRun true returncode with
  | .ok r => r
  | .error e => e

/-- `SubProcessWrapper.RunWithoutOutput`: the checked, output-capturing,
`shell=True` call with `CalledProcessError` caught and its return code
returned (the debug prints do not affect the result). -/
def RunWithoutOutput (returncode : Int) : Int :=
  match subprocessRun true returncode with
  | .ok r => r
  | .error e => e

end SubProcessWrapper

/-- What `/bin/sh` is handed when `subprocess` runs a sequence with
`shell=True` on POSIX: the child is `["/bin/sh", "-c"] ++ args`, so `-c`
executes `args[0]` as the script and the remaining elements become the
shell's own positional parameters, not words of that script. -/
structure ShellInvocation where
  script : String
  shellParams : List String
deriving DecidableEq

/-- How `subprocess` turns an argument list into a child invocation:
without `shell` the list is the child's argv; with `shell` (POSIX) the head
becomes the `-c` script and the tail the shell's positional parameters
(`none` for an empty list, which the shell call cannot run). -/
inductive ChildInvocation where
  | direct (argv : List String)
  | viaShell (s : ShellInvocation)
deriving DecidableEq

def posixShellInvocation : List String → Option ShellInvocation
  | [] => none
  | cmd :: rest => some { script := cmd, shellParams := rest }

def subprocessInvocation (shell : Bool) (args : List String) :
    Option ChildInvocation :=
  if shell then (posixShellInvocation args).map .viaShell
  else some (.direct args)

/-- The script the shell interprets, when the invocation goes via a shell. -/
def ChildInvocation.scriptOf : ChildInvocation → Option String
  | .direct _ => none
  | .viaShell s => some s.script

/-- The child invocation `SubProcessWrapper.RunWithoutOutput` produces from
its argument list: the source passes `shell=True`. -/
def SubProcessWrapper.RunWithoutOutput_child (args : List String) :
    Option ChildInvocation :=
  subprocessInvocation true args

/-- The child invocation `SubProcessWrapper.Run` produces: no `shell`
keyword, so the default `shell=False` applies and the list is the argv. -/
def SubProcessWrapper.Run_child (args : List String) : Option ChildInvocation :=
  subprocessInvocation false args

/-- `os.path.join` for two POSIX path components. -/
def osPathJoin (a b : String) : String :=
  if b.startsWith "/" then b
  else if a = "" ∨ a.endsWith "/" then a ++ b
  else a ++ "/" ++ b

/-- `os.path.dirname` for a POSIX path: everything up to the last slash,
with trailing slashes stripped unless the head is all slashes. -/
def osPathDirname (p : String) : String :=
  let head := (p.data.reverse.dropWhile (fun c => c ≠ '/')).reverse
  let head :=
    if head ≠ [] ∧ head.any (fun c => c ≠ '/') then
      (head.reverse.dropWhile (fun c => c = '/')).reverse
    else head
  String.mk head

/-- The process-global state the directory discipline is about: the current
working directory, and the `OLDPWD` environment variable the process
inherited (assumed set; `os.chdir` never updates it). -/
structure ProcState where
  cwd : String
  oldpwdEnv : String
deriving DecidableEq

/-- `os.chdir`: changes the working directory and nothing else. -/
def osChdir (s : ProcState) (dir : String) : ProcState :=
  { s with cwd := dir }

structure Cmake where
  projectHome : String
  buildDirectory : String
deriving DecidableEq

namespace Cmake

def CMAKE : String := "cmake"

/-- `Cmake.__init__`: the existence checks on the project home and on the
build directory's parent, against the filesystem oracle `pathExists`;
raises `FileNotFoundError` when one fails. -/
def init (pathExists : String → Bool) (projectHome buildDirectory : String) :
    Except PyError Cmake :=
  if pathExists projectHome = false then
    .error (.fileNotFoundError
      ("ProjectHome does not exist. '" ++ projectHome ++ "'"))
  else if pathExists (osPathDirname buildDirectory) = false then
    .error (.fileNotFoundError
      ("BuildDirectory does not exist. '" ++ buildDirectory ++ "'"))
  else
    .ok { projectHome := projectHome, buildDirectory := buildDirectory }

/-- The command list `Configure` assembles. -/
def configureCommand (m : Cmake) : List String :=
  [CMAKE, "-S", m.projectHome, "-B", m.buildDirectory]

/-- The command list `Build` assembles from its parameters. -/
def buildCommand (m : Cmake) (target : String) (buildType : Option String)
    (enableVerbose : Bool) (cmakeArgs : Option (List String)) : List String :=
  let command := [CMAKE, "--build", m.buildDirectory, "--target", target]
  let command :=
    match buildType with
    | some t => if t ≠ "" then command ++ ["--config", t] else command
    | none => command
  let command := if enableVerbose then command ++ ["-v"] else command
  match cmakeArgs with
  | some as => if as ≠ [] ∧ as ≠ [""] then command ++ as else command
  | none => command

/-- `Cmake.__Enter`: `os.chdir(self.__projectHome)`. -/
def Enter (m : Cmake) (s : ProcState) : ProcState :=
  osChdir s m.projectHome

/-- `Cmake.__Exit`: `os.chdir(os.getenv("OLDPWD"))` — it changes to the
inherited `OLDPWD` value, not to the directory that was current before
`__Enter`. -/
def Exit (s : ProcState) : ProcState :=
  osChdir s s.oldpwdEnv

/-- `Cmake.Configure` over the stubbed cmake exit code and the process
state: enter the project home, run, and on success return `true` at once —
only the failure path calls `__Exit`. -/
def Configure (m : Cmake) (exitCode : Int) (s : ProcState) : Bool × ProcState :=
  let s1 := m.Enter s
  if SubProcessWrapper.RunSimply exitCode == 0 then (true, s1)
  else (false, Exit s1)

/-- `Cmake.Build` over the stubbed cmake exit code and the process state:
enter the project home, run, and call `__Exit` on both paths (the command
assembly is `buildCommand`; it does not affect the directory discipline). -/
def Build (m : Cmake) (exitCode : Int) (s : ProcState) : Bool × ProcState :=
  let s1 := m.Enter s
  if SubProcessWrapper.RunSimply exitCode == 0 then (true, Exit s1)
  else (false, Exit s1)

/-- Filesystem error `Cleanup`'s two steps can raise. -/
inductive FsErr where
  | notFound
  | fileExists
deriving DecidableEq

/-- `shutil.rmtree` on the build directory's state (its list of entries, or
`none` when the directory is absent): raises when absent, otherwise removes
the tree. -/
def shutilRmtree : Option (List String) → Except FsErr (Option (List String))
  | none => .error .notFound
  | some _ => .ok none

/-- `os.mkdir` on the directory's state: raises when something is already
there, otherwise creates it empty. -/
def osMkdir : Option (List String) → Except FsErr (Option (List String))
  | none => .ok (some [])
  | some _ => .error .fileExists

/-- `Cmake.Cleanup`: `shutil.rmtree` then `os.mkdir` on the build
directory's state at its unchanged path. -/
def Cleanup (d : Option (List String)) : Except FsErr (Option (List String)) := do
  let d1 ← shutilRmtree d
  osMkdir d1

end Cmake

namespace ProjectBuilder

/-- The `ProjectBuilder.Controls` dataclass with its defaults. -/
structure Controls where
  doConfiguration : Bool := true
  doBuild : Bool := true
  doCleanup : Bool := false
  createSetting : Bool := false
  isDebug : Bool := false
deriving DecidableEq

/-- The parsed command-line flags `Setup` reads (every flag is a
`store_true` option, absent meaning `false`), with the two string options. -/
structure Args where
  target : String := "all"
  configure : Bool := false
  build : Bool := false
  verbose : Bool := false
  type : String := ""
  clean : Bool := false
  cmake_args : String := ""
  create_settings : Bool := false
  debug : Bool := false
deriving DecidableEq

/-- `ProjectBuilder.__verifyControls`: when neither configure nor build was
requested, run both. -/
def verifyControls (c : Controls) : Controls :=
  if c.doConfiguration = false ∧ c.doBuild = false then
    { c with doConfiguration := true, doBuild := true }
  else c

/-- `ProjectBuilder.Setup`: copies the parsed flags into the controls and
then resolves them with `__verifyControls`. -/
def Setup (a : Args) : Controls :=
  verifyControls
    { isDebug := a.debug, doCleanup := a.clean, doConfiguration := a.configure,
      doBuild := a.build, createSetting := a.create_settings }

/-- One operation of a run, in the order `Run` attempts them. -/
inductive Event where
  | createSettings
  | load
  | cleanup
  | configure (ok : Bool)
  | build (ok : Bool)
deriving DecidableEq

/-- The environment one run executes against: the settings file at the fixed
location, the filesystem existence oracle, and the stubbed external tool's
exit codes for the configure and build invocations. Within one run nothing
the run does invalidates this snapshot, because each mutating branch returns
immediately after its mutation. -/
structure Env where
  settingsFile : Option FileContent
  pathExists : String → Bool
  configureExit : Int
  buildExit : Int

/-- The values a successful load leaves in the store (fresh per run). -/
def Env.loadedValues (env : Env) : BuildSetting.Values :=
  (BuildSetting.Load env.settingsFile {}).2

/-- The build directory path `Run` hands to `Cmake`:
`os.path.join(projectHome, buildDirectory)` of the loaded values. -/
def Env.buildDirPath (env : Env) : String :=
  osPathJoin env.loadedValues.projectHome env.loadedValues.buildDirectory

/-- What one `ProjectBuilder.Run` call did: the operations attempted in
order, the raised error (if any), the `response` field afterwards, and the
process state afterwards. -/
structure RunResult where
  events : List Event
  error : Option PyError
  response : String
  state : ProcState

/-- `ProjectBuilder.Run` over the resolved controls, the environment and
the process state. Mirrors the source's early returns: create-settings
first, then load, then the `Cmake` constructor checks, then cleanup, then
configure (returning on failure) and build. A raised error is returned in
`error` with the trace of what had been attempted before it. -/
def Run (c : Controls) (env : Env) (s : ProcState) : RunResult :=
  if c.createSetting then
    { events := [.createSettings], error := none,
      response := "Successfully created '" ++ BuildSetting.FILE_NAME ++ "'",
      state := s }
  else
    match (BuildSetting.Load env.settingsFile {}).1 with
    | some e =>
      { events := [.load], error := some e.toPyError, response := "", state := s }
    | none =>
      match Cmake.init env.pathExists env.loadedValues.projectHome
          env.buildDirPath with
      | .error e =>
        { events := [.load], error := some e, response := "", state := s }
      | .ok cm =>
        if c.doCleanup then
          -- Cleanup's rmtree raises when the build directory is absent.
          if env.pathExists cm.buildDirectory then
            { events := [.load, .cleanup], error := none,
              response := "Cleaned up project repository.", state := s }
          else
            { events := [.load],
              error := some (.fileNotFoundError
                ("[Errno 2] No such file or directory: '" ++
                  cm.buildDirectory ++ "'")),
              response := "", state := s }
        else
          if c.doConfiguration then
            let r1 := cm.Configure env.configureExit s
            if r1.1 then
              if c.doBuild then
                let r2 := cm.Build env.buildExit r1.2
                { events := [.load, .configure true, .build r2.1],
                  error := none, response := "", state := r2.2 }
              else
                { events := [.load, .configure true], error := none,
                  response := "", state := r1.2 }
            else
              { events := [.load, .configure false], error := none,
                response := "", state := r1.2 }
          else
            if c.doBuild then
              let r2 := cm.Build env.buildExit s
              { events := [.load, .build r2.1], error := none,
                response := "", state := r2.2 }
            else
              { events := [.load], error := none, response := "", state := s }

end ProjectBuilder

/-- The lines `main` prints: `Setup`/`Run` inside a `try`, then the
`response` when non-empty; a caught exception prints the one line
`"<program name>: <message>"`. -/
def main_output (c : ProjectBuilder.Controls) (env : ProjectBuilder.Env)
    (s : ProcState) : List String :=
  let r := ProjectBuilder.Run c env s
  match r.error with
  | some e => [MY_NAME ++ ": " ++ e.message]
  | none => if r.response = "" then [] else [r.response]

/-- C1: the claim says every `Configure`/`Build` invocation leaves the
working directory as it was before the call. The code violates it: on a
zero exit code `Configure` returns `true` without calling `__Exit`, leaving
the working directory at the project home; and `__Exit` itself changes to
the inherited `$OLDPWD`, not to the pre-call directory, so even `Build`
ends at `/old` rather than the pre-call `/work`. -/
theorem configure_and_build_do_not_restore_cwd :
    ((Cmake.Configure { projectHome := "/proj", buildDirectory := "/proj/build" }
        0 { cwd := "/work", oldpwdEnv := "/old" }).2).cwd = "/proj"
    ∧ ((Cmake.Build { projectHome := "/proj", buildDirectory := "/proj/build" }
        0 { cwd := "/work", oldpwdEnv := "/old" }).2).cwd = "/old" :=
  ⟨rfl, rfl⟩

/-- C2 counterexample: for the settings object holding only `ProjectHome`,
`Load` raises the `KeyError` for `BuildDirectory` but the store is not left
unchanged — `projectHome` was already overwritten. -/
theorem load_missing_builddir_mutates_store :
    (BuildSetting.Load (some (.obj [("ProjectHome", "/p")])) {}).1
      = some (BuildSetting.LoadErr.keyErr "BuildDirectory")
    ∧ (BuildSetting.Load (some (.obj [("ProjectHome", "/p")])) {}).2
      ≠ ({} : BuildSetting.Values) := by
  exact ⟨rfl, by decide⟩

/-- C2 (amended): for every settings object missing either required key,
`Load` raises an error and never completes; the `buildDirectory` field is
left unchanged, and when `ProjectHome` is the missing key the whole store
is unchanged — but when only `BuildDirectory` is missing, `projectHome` has
already been overwritten when the error is raised. -/
theorem load_missing_key_raises_never_completes
    (kvs : List (String × String)) (v : BuildSetting.Values)
    (h : jsonGet kvs BuildSetting.Name.PROJECT_HOME = none
       ∨ jsonGet kvs BuildSetting.Name.BUILD_DIR = none) :
    (BuildSetting.Load (some (.obj kvs)) v).1.isSome = true
    ∧ (BuildSetting.Load (some (.obj kvs)) v).2.buildDirectory
        = v.buildDirectory
    ∧ (jsonGet kvs BuildSetting.Name.PROJECT_HOME = none →
        (BuildSetting.Load (some (.obj kvs)) v).2 = v) := by
  unfold BuildSetting.Load
  rcases hph : jsonGet kvs BuildSetting.Name.PROJECT_HOME with _ | ph
  · simp [hph]
  · rcases hbd : jsonGet kvs BuildSetting.Name.BUILD_DIR with _ | bd
    · simp [hph, hbd]
    · rcases h with h | h
      · rw [hph] at h; cases h
      · rw [hbd] at h; cases h

/-- C2 witness: the amended statement at the store's defaults and the
object holding only `ProjectHome`. -/
theorem load_missing_key_witness :
    (BuildSetting.Load (some (.obj [("ProjectHome", "/p")]))
        ({} : BuildSetting.Values)).1.isSome = true
    ∧ (BuildSetting.Load (some (.obj [("ProjectHome", "/p")]))
        ({} : BuildSetting.Values)).2.buildDirectory
        = ({} : BuildSetting.Values).buildDirectory
    ∧ (jsonGet [("ProjectHome", "/p")] BuildSetting.Name.PROJECT_HOME = none →
        (BuildSetting.Load (some (.obj [("ProjectHome", "/p")]))
          ({} : BuildSetting.Values)).2 = ({} : BuildSetting.Values)) :=
  load_missing_key_raises_never_completes [("ProjectHome", "/p")] {}
    (Or.inr (by decide))

/-- C4: `Create` never overwrites an existing settings file, is idempotent,
and when the file is absent writes exactly the template
`{"ProjectHome": ".", "BuildDirectory": "build"}`. -/
theorem create_idempotent_and_nondestructive :
    (∀ c : FileContent, BuildSetting.Create (some c) = some c)
    ∧ (∀ f : Option FileContent,
        BuildSetting.Create (BuildSetting.Create f) = BuildSetting.Create f)
    ∧ BuildSetting.Create none = some BuildSetting.TEMPLATE
    ∧ BuildSetting.TEMPLATE
        = FileContent.obj [("ProjectHome", "."), ("BuildDirectory", "build")] := by
  refine ⟨fun c => rfl, fun f => ?_, rfl, rfl⟩
  cases f <;> rfl

/-- C7: on every existing build directory, files inside included, `Cleanup`
returns with the directory present at its unchanged path and empty. -/
theorem cleanup_leaves_existing_dir_empty (contents : List String) :
    Cmake.Cleanup (some contents) = Except.ok (some ([] : List String)) :=
  rfl

/-- C8: for every non-zero child exit code, `RunWithoutOutput` returns the
code instead of raising, while `Run` propagates it as a raised
`CalledProcessError`. -/
theorem runwithoutoutput_returns_nonzero_code (code : Int) (h : code ≠ 0) :
    SubProcessWrapper.RunWithoutOutput code = code
    ∧ SubProcessWrapper.Run code = Except.error code := by
  unfold SubProcessWrapper.RunWithoutOutput SubProcessWrapper.Run subprocessRun
  simp [h]

/-- C8 witness: exit code 2. -/
theorem runwithoutoutput_nonzero_witness :
    SubProcessWrapper.RunWithoutOutput 2 = 2
    ∧ SubProcessWrapper.Run 2 = Except.error 2 :=
  runwithoutoutput_returns_nonzero_code 2 (by decide)

/-- C9: for every argument list of length at least two handed to
`RunWithoutOutput`, the `shell=True` call makes only the first element the
shell's `-c` script — the script is the same as for the one-element list —
and the remaining elements become the shell's positional parameters, not
arguments of that command. -/
theorem shell_true_only_head_is_command (cmd a : String) (rest : List String) :
    SubProcessWrapper.RunWithoutOutput_child (cmd :: a :: rest)
      = some (ChildInvocation.viaShell
          { script := cmd, shellParams := a :: rest })
    ∧ (SubProcessWrapper.RunWithoutOutput_child (cmd :: a :: rest)).bind
        ChildInvocation.scriptOf
      = (SubProcessWrapper.RunWithoutOutput_child [cmd]).bind
        ChildInvocation.scriptOf :=
  ⟨rfl, rfl⟩

/-- Whether an event is a configure invocation. -/
def ProjectBuilder.Event.isConfigure : ProjectBuilder.Event → Bool
  | .configure _ => true
  | _ => false

/-- Whether an event is a build invocation. -/
def ProjectBuilder.Event.isBuild : ProjectBuilder.Event → Bool
  | .build _ => true
  | _ => false

/-- Every trace `Run` can produce takes one of these seven shapes. -/
theorem ProjectBuilder.run_events_shape (c : ProjectBuilder.Controls)
    (env : ProjectBuilder.Env) (s : ProcState) :
    (ProjectBuilder.Run c env s).events = [.createSettings]
    ∨ (ProjectBuilder.Run c env s).events = [.load]
    ∨ (ProjectBuilder.Run c env s).events = [.load, .cleanup]
    ∨ (ProjectBuilder.Run c env s).events = [.load, .configure false]
    ∨ (ProjectBuilder.Run c env s).events = [.load, .configure true]
    ∨ (∃ b, (ProjectBuilder.Run c env s).events
        = [.load, .configure true, .build b])
    ∨ (∃ b, (ProjectBuilder.Run c env s).events = [.load, .build b]) := by
  unfold ProjectBuilder.Run
  repeat' split
  all_goals try simp
  all_goals split <;> simp

/-- C5: in every run, when the trace has both a configure and a build
invocation the configure one comes strictly first, and after a configure
invocation that returned failure no build invocation ever appears. -/
theorem configure_precedes_build_and_failure_skips_build
    (c : ProjectBuilder.Controls) (env : ProjectBuilder.Env) (s : ProcState) :
    (∀ i j,
        (ProjectBuilder.Run c env s).events.findIdx?
          ProjectBuilder.Event.isConfigure = some i →
        (ProjectBuilder.Run c env s).events.findIdx?
          ProjectBuilder.Event.isBuild = some j → i < j)
    ∧ (ProjectBuilder.Event.configure false ∈ (ProjectBuilder.Run c env s).events →
        ∀ b, ProjectBuilder.Event.build b ∉ (ProjectBuilder.Run c env s).events) := by
  rcases ProjectBuilder.run_events_shape c env s with
    h | h | h | h | h | ⟨b, h⟩ | ⟨b, h⟩ <;> rw [h] <;> constructor <;>
    simp [List.findIdx?_cons, ProjectBuilder.Event.isConfigure,
      ProjectBuilder.Event.isBuild]

/-- C6: when neither the configure flag nor the build flag is set, the
resolved controls request both configure and build, and against an
environment whose settings load and whose constructor checks pass (and
without the clean/create-settings flags) the run attempts configure first
and then build. -/
theorem no_flags_both_configure_and_build
    (a : ProjectBuilder.Args) (env : ProjectBuilder.Env) (s : ProcState)
    (h1 : a.configure = false) (h2 : a.build = false)
    (h3 : a.clean = false) (h4 : a.create_settings = false)
    (hload : (BuildSetting.Load env.settingsFile {}).1 = none)
    (hph : env.pathExists env.loadedValues.projectHome = true)
    (hbd : env.pathExists (osPathDirname env.buildDirPath) = true)
    (hcfg : env.configureExit = 0) :
    (ProjectBuilder.Setup a).doConfiguration = true
    ∧ (ProjectBuilder.Setup a).doBuild = true
    ∧ (ProjectBuilder.Run (ProjectBuilder.Setup a) env s).events
        = [.load, .configure true,
           .build (SubProcessWrapper.RunSimply env.buildExit == 0)] := by
  have hs : ProjectBuilder.Setup a =
      { doConfiguration := true, doBuild := true, doCleanup := false,
        createSetting := false, isDebug := a.debug } := by
    simp [ProjectBuilder.Setup, ProjectBuilder.verifyControls, h1, h2, h3, h4]
  refine ⟨by rw [hs], by rw [hs], ?_⟩
  rw [hs]
  unfold ProjectBuilder.Run
  simp [hload, Cmake.init, hph, hbd, Cmake.Configure, Cmake.Build,
    SubProcessWrapper.RunSimply, subprocessRun, hcfg]
  split <;> simp_all

/-- C6 witness: the empty argument vector, the template settings file, an
all-true filesystem oracle and a stub tool that exits 0 on both calls. -/
theorem no_flags_witness :
    (ProjectBuilder.Setup {}).doConfiguration = true
    ∧ (ProjectBuilder.Setup {}).doBuild = true
    ∧ (ProjectBuilder.Run (ProjectBuilder.Setup {})
        { settingsFile := some BuildSetting.TEMPLATE,
          pathExists := fun _ => true, configureExit := 0, buildExit := 0 }
        { cwd := "/work", oldpwdEnv := "/work" }).events
      = [.load, .configure true, .build true] :=
  no_flags_both_configure_and_build {} _ _ rfl rfl rfl rfl (by decide)
    rfl rfl rfl

/-- Helper for C3: with no raised error, the response is non-empty exactly
when the run was a create-settings run or a cleanup run. -/
theorem run_response_nonempty_iff (c : ProjectBuilder.Controls)
    (env : ProjectBuilder.Env) (s : ProcState)
    (herr : (ProjectBuilder.Run c env s).error = none) :
    ((ProjectBuilder.Run c env s).response ≠ "" ↔
      (c.createSetting = true ∨ c.doCleanup = true)) := by
  unfold ProjectBuilder.Run at herr ⊢
  repeat' split
  all_goals simp_all [apply_ite ProjectBuilder.RunResult.response]
  all_goals decide

/-- C3 counterexample: with no flags, the template settings file, an
all-true filesystem and a stub tool that exits 0 on both invocations, the
run completes without a raised error yet prints no status line at all
(`response` is never set on the configure/build path), not exactly one. -/
theorem successful_full_run_prints_no_line :
    (ProjectBuilder.Run (ProjectBuilder.Setup {})
        { settingsFile := some BuildSetting.TEMPLATE,
          pathExists := fun _ => true, configureExit := 0, buildExit := 0 }
        { cwd := "/work", oldpwdEnv := "/work" }).error = none
    ∧ main_output (ProjectBuilder.Setup {})
        { settingsFile := some BuildSetting.TEMPLATE,
          pathExists := fun _ => true, configureExit := 0, buildExit := 0 }
        { cwd := "/work", oldpwdEnv := "/work" } = [] :=
  ⟨rfl, rfl⟩

/-- C3 (amended): a run that raises an error prints exactly the single line
`"<program name>: <message>"`; a run that completes without a raised error
prints at most one line — exactly one status line when it was a
create-settings or clean run, and none when it went through the
configure/build path. -/
theorem main_prints_at_most_one_line
    (c : ProjectBuilder.Controls) (env : ProjectBuilder.Env) (s : ProcState) :
    (∀ e, (ProjectBuilder.Run c env s).error = some e →
        main_output c env s = [MY_NAME ++ ": " ++ e.message])
    ∧ ((ProjectBuilder.Run c env s).error = none →
        (main_output c env s).length ≤ 1
        ∧ ((main_output c env s).length = 1 ↔
            (c.createSetting = true ∨ c.doCleanup = true))) := by
  constructor
  · intro e he
    simp only [main_output, he]
  · intro herr
    have hresp := run_response_nonempty_iff c env s herr
    simp only [main_output, herr]
    by_cases hr : (ProjectBuilder.Run c env s).response = ""
    · rw [hr] at hresp
      simp only [ne_eq, not_true_eq_false, false_iff] at hresp
      simp [hr, hresp]
    · simp [hr, hresp.mp hr]

/-- Helper: a successful `Cmake.__init__` means both existence checks
passed. -/
theorem Cmake.init_ok_elim {pe : String → Bool} {ph bd : String} {cm : Cmake}
    (h : Cmake.init pe ph bd = Except.ok cm) :
    pe ph = true ∧ pe (osPathDirname bd) = true := by
  unfold Cmake.init at h
  split at h
  · cases h
  · split at h
    · cases h
    · simp_all

/-- C10 counterexample: a run with both the clean flag and the
create-settings flag while the settings file is absent: the claim predicts
a raised error, but the create-settings short-circuit returns successfully
(the build directory is indeed never touched). -/
theorem clean_with_create_settings_no_error :
    (ProjectBuilder.Run
        (ProjectBuilder.Setup { clean := true, create_settings := true })
        { settingsFile := none, pathExists := fun _ => false,
          configureExit := 1, buildExit := 1 }
        { cwd := "/work", oldpwdEnv := "/work" }).error = none
    ∧ ProjectBuilder.Event.cleanup ∉
        (ProjectBuilder.Run
          (ProjectBuilder.Setup { clean := true, create_settings := true })
          { settingsFile := none, pathExists := fun _ => false,
            configureExit := 1, buildExit := 1 }
          { cwd := "/work", oldpwdEnv := "/work" }).events :=
  ⟨rfl, by decide⟩

/-- C10 (amended): for every run with the clean flag and without the
create-settings flag (which short-circuits before cleanup), a cleanup is
attempted only when the settings file loaded successfully and both
`Cmake.__init__` existence checks passed; and whenever the settings file
fails to load or an existence check fails, the run raises an error and the
build directory is never deleted or recreated. -/
theorem cleanup_gated_by_load_and_checks
    (a : ProjectBuilder.Args) (env : ProjectBuilder.Env) (s : ProcState)
    (_h1 : a.clean = true) (h2 : a.create_settings = false) :
    (ProjectBuilder.Event.cleanup ∈
        (ProjectBuilder.Run (ProjectBuilder.Setup a) env s).events →
      (BuildSetting.Load env.settingsFile {}).1 = none
      ∧ env.pathExists env.loadedValues.projectHome = true
      ∧ env.pathExists (osPathDirname env.buildDirPath) = true)
    ∧ (((BuildSetting.Load env.settingsFile {}).1.isSome = true
        ∨ env.pathExists env.loadedValues.projectHome = false
        ∨ env.pathExists (osPathDirname env.buildDirPath) = false) →
      (ProjectBuilder.Run (ProjectBuilder.Setup a) env s).error.isSome = true
      ∧ ProjectBuilder.Event.cleanup ∉
          (ProjectBuilder.Run (ProjectBuilder.Setup a) env s).events) := by
  have hcs : (ProjectBuilder.Setup a).createSetting = false := by
    unfold ProjectBuilder.Setup ProjectBuilder.verifyControls
    split <;> simp [h2]
  unfold ProjectBuilder.Run
  simp only [hcs, Bool.false_eq_true, if_false]
  repeat' split
  all_goals simp_all
  all_goals exact Cmake.init_ok_elim (by assumption)

/-- C10 witness: with the clean flag, no create-settings flag and the
settings file absent, the run raises an error and never touches the build
directory. -/
theorem cleanup_gated_witness :
    (ProjectBuilder.Run (ProjectBuilder.Setup { clean := true })
        { settingsFile := none, pathExists := fun _ => false,
          configureExit := 1, buildExit := 1 }
        { cwd := "/work", oldpwdEnv := "/work" }).error.isSome = true
    ∧ ProjectBuilder.Event.cleanup ∉
        (ProjectBuilder.Run (ProjectBuilder.Setup { clean := true })
          { settingsFile := none, pathExists := fun _ => false,
            configureExit := 1, buildExit := 1 }
          { cwd := "/work", oldpwdEnv := "/work" }).events :=
  (cleanup_gated_by_load_and_checks { clean := true } _ _ rfl rfl).2
    (Or.inl rfl)
